import Mathlib

/-!
Shallow embedding of `src/object/property.rs` from isar-core: the object
codec and typed accessor layer (Property, DataPosition, the typed getters,
the null predicate and the raw byte views).

Modelling conventions:
- A blob (`object : &[u8]`) is a `List Nat` of byte values; little-endian
  multi-byte reads combine bytes by `b0 + 256 * (b1 + 256 * ...)`.
- Rust panics (failed `assert!`/`assert_eq!`, out-of-bounds slicing,
  `unwrap` on invalid UTF-8, `unimplemented!`) are modelled as
  `Except.error` with a `PanicKind` naming the panic site; normal returns
  are `Except.ok`.
- The accessors check the runtime address of slices
  (`bytes.as_ptr() as usize % size_of::<T>()` in
  `transmute_verify_alignment`), so every function that can reach that
  assert takes the blob's base address `base : Nat` as an explicit
  parameter; the address of `&object[i..]` is `base + i`.
- `f32`/`f64` values are kept as their raw bit patterns (a `Nat` below
  `2^32` / `2^64`); `is_nan` is the IEEE-754 test on those bits
  (exponent all ones, mantissa nonzero).
- Signed integers decode via `toSigned w`, the two's-complement value of
  the low `w` bits.
-/

namespace IsarCore

/-- The little-endian value of a list of bytes. -/
def leVal : List Nat → Nat
  | [] => 0
  | b :: r => b + 256 * leVal r

/-- Read `n` bytes of `object` starting at `offset`, little-endian.
Out-of-range positions read as 0; every accessor bounds-checks before
decoding, so this default is never observable through the API. -/
def readLE (object : List Nat) (offset : Nat) : Nat → Nat
  | 0 => 0
  | Nat.succ n => object.getD offset 0 + 256 * readLE object (offset + 1) n

/-- Two's-complement interpretation of the low `w` bits of `x`. -/
def toSigned (w : Nat) (x : Nat) : Int :=
  if x % 2 ^ w < 2 ^ (w - 1) then (x % 2 ^ w : Int)
  else (x % 2 ^ w : Int) - 2 ^ w

/-- IEEE-754 `f32::is_nan` on the raw bit pattern. -/
def f32_is_nan (bits : Nat) : Bool :=
  decide ((bits / 2 ^ 23) % 2 ^ 8 = 0xFF) && decide (bits % 2 ^ 23 ≠ 0)

/-- IEEE-754 `f64::is_nan` on the raw bit pattern. -/
def f64_is_nan (bits : Nat) : Bool :=
  decide ((bits / 2 ^ 52) % 2 ^ 11 = 0x7FF) && decide (bits % 2 ^ 52 ≠ 0)

/-- Modelled from the spec: `src/object/data_type.rs` is not among the
provided sources. The closed set of storable types, per spec section 3.4:
static types `Bool, Int, Float, Long, Double`; dynamic types `String,
Bytes, IntList, LongList, FloatList, DoubleList, BoolList, StringList,
BytesList`. -/
inductive DataType where
  | Bool
  | Int
  | Float
  | Long
  | Double
  | String
  | Bytes
  | IntList
  | LongList
  | FloatList
  | DoubleList
  | BoolList
  | StringList
  | BytesList
deriving DecidableEq, Repr

/-- Modelled from the spec: `DataType::is_dynamic` (in the missing
`src/object/data_type.rs`) is true exactly for the nine dynamic variants
(spec sections 3.4 and 4.1). -/
def is_dynamic : DataType → Bool
  | .String | .Bytes | .IntList | .LongList | .FloatList | .DoubleList
  | .BoolList | .StringList | .BytesList => true
  | .Bool | .Int | .Float | .Long | .Double => false

/-- The panic sites of `property.rs`, used as the error type of the
embedding: `typeMismatch` for the `assert_eq!(self.data_type, ...)` /
`assert!(is_dynamic)` asserts, `outOfBounds` for slice-index panics,
`wrongAlignment` for the `assert_eq!(alignment % type_size, 0)` in
`transmute_verify_alignment`, `utf8Error` for the `.unwrap()` on
`std::str::from_utf8`, `notImplemented` for `unimplemented!()`. -/
inductive PanicKind where
  | typeMismatch
  | outOfBounds
  | wrongAlignment
  | utf8Error
  | notImplemented
deriving DecidableEq, Repr

/-- Result of an accessor: a value, or a panic. -/
abbrev Res (α : Type) := Except PanicKind α

instance {ε α : Type} [DecidableEq ε] [DecidableEq α] :
    DecidableEq (Except ε α) := fun a b =>
  match a, b with
  | Except.ok x, Except.ok y =>
    if h : x = y then isTrue (by rw [h]) else
      isFalse (fun hc => h (Except.ok.inj hc))
  | Except.error x, Except.error y =>
    if h : x = y then isTrue (by rw [h]) else
      isFalse (fun hc => h (Except.error.inj hc))
  | Except.ok _, Except.error _ => isFalse (fun hc => Except.noConfusion hc)
  | Except.error _, Except.ok _ => isFalse (fun hc => Except.noConfusion hc)

/-- `struct DataPosition { offset: u32, length: u32 }` (repr(C), size 8). -/
structure DataPosition where
  offset : Nat
  length : Nat
deriving DecidableEq, Repr

/-- `DataPosition::is_null`: the header is null iff its offset is 0. -/
def DataPosition.is_null (dp : DataPosition) : Bool :=
  dp.offset == 0

/-- `struct Property { data_type: DataType, offset: usize }`. -/
structure Property where
  data_type : DataType
  offset : Nat
deriving DecidableEq, Repr

/-- `Property::NULL_INT = i32::MIN`. -/
def NULL_INT : Int := -(2 ^ 31)

/-- `Property::NULL_LONG = i64::MIN`. -/
def NULL_LONG : Int := -(2 ^ 63)

/-- `Property::FALSE_BOOL = 0`. -/
def FALSE_BOOL : Nat := 0

/-- `Property::TRUE_BOOL = 1`. -/
def TRUE_BOOL : Nat := 1

/-- `Property::NULL_BOOL = 2`. -/
def NULL_BOOL : Nat := 2

/-- `Property::get_list_position`: slice `&object[offset..offset + 8]`
(panicking when out of bounds), then `transmute_verify_alignment::
<DataPosition>`, which asserts that the slice's address is divisible by
`size_of::<DataPosition>() = 8`, and read the `(offset, length)` pair
little-endian. `base` is the address of `object[0]`. -/
def get_list_position (base : Nat) (object : List Nat) (offset : Nat) :
    Res DataPosition :=
  if offset + 8 ≤ object.length then
    if (base + offset) % 8 = 0 then
      Except.ok ⟨readLE object offset 4, readLE object (offset + 4) 4⟩
    else Except.error PanicKind.wrongAlignment
  else Except.error PanicKind.outOfBounds

/-- `Property::get_list::<T>` up to the typed view: resolve the header at
`offset`; `None` when null; otherwise slice
`&object[h.offset .. h.offset + h.length * size_of::<T>()]` (panicking
when out of bounds), assert the payload address is divisible by
`size_of::<T>()` (`transmute_verify_alignment`), and return the raw
payload bytes. Typed getters decode these bytes chunkwise, which is what
the transmute's reinterpretation yields on a little-endian machine. -/
def get_list (base : Nat) (object : List Nat) (offset type_size : Nat) :
    Res (Option (List Nat)) :=
  match get_list_position base object offset with
  | Except.error e => Except.error e
  | Except.ok dp =>
    if dp.is_null then Except.ok none
    else
      if dp.offset + dp.length * type_size ≤ object.length then
        if (base + dp.offset) % type_size = 0 then
          Except.ok (some ((object.drop dp.offset).take (dp.length * type_size)))
        else Except.error PanicKind.wrongAlignment
      else Except.error PanicKind.outOfBounds

/-- Decode a payload of `bytes.length / size` consecutive `size`-byte
chunks, as the transmuted `&[T]` view does. -/
def decodeChunks (α : Type) (dec : List Nat → α) (size : Nat)
    (bytes : List Nat) : List α :=
  (List.range (bytes.length / size)).map
    (fun i => dec ((bytes.drop (i * size)).take size))

/-- `Property::get_int`: assert the declared type is Int, then read 4
bytes at `p.offset` as a little-endian `i32`. -/
def get_int (p : Property) (object : List Nat) : Res Int :=
  if p.data_type = DataType.Int then
    if p.offset + 4 ≤ object.length then
      Except.ok (toSigned 32 (readLE object p.offset 4))
    else Except.error PanicKind.outOfBounds
  else Except.error PanicKind.typeMismatch

/-- `Property::get_long`: assert the declared type is Long, then read 8
bytes at `p.offset` as a little-endian `i64`. -/
def get_long (p : Property) (object : List Nat) : Res Int :=
  if p.data_type = DataType.Long then
    if p.offset + 8 ≤ object.length then
      Except.ok (toSigned 64 (readLE object p.offset 8))
    else Except.error PanicKind.outOfBounds
  else Except.error PanicKind.typeMismatch

/-- `Property::get_float`: assert the declared type is Float, then read 4
bytes at `p.offset` as the bit pattern of a little-endian `f32`. -/
def get_float (p : Property) (object : List Nat) : Res Nat :=
  if p.data_type = DataType.Float then
    if p.offset + 4 ≤ object.length then
      Except.ok (readLE object p.offset 4)
    else Except.error PanicKind.outOfBounds
  else Except.error PanicKind.typeMismatch

/-- `Property::get_double`: assert the declared type is Double, then read
8 bytes at `p.offset` as the bit pattern of a little-endian `f64`. -/
def get_double (p : Property) (object : List Nat) : Res Nat :=
  if p.data_type = DataType.Double then
    if p.offset + 8 ≤ object.length then
      Except.ok (readLE object p.offset 8)
    else Except.error PanicKind.outOfBounds
  else Except.error PanicKind.typeMismatch

/-- `Property::get_bool`: assert the declared type is Bool, then decode
the byte at `p.offset` (panicking when out of bounds): 0 is
`some false`, 1 is `some true`, anything else is `none`. -/
def get_bool (p : Property) (object : List Nat) : Res (Option Bool) :=
  if p.data_type = DataType.Bool then
    if p.offset < object.length then
      if object.getD p.offset 0 = FALSE_BOOL then Except.ok (some false)
      else if object.getD p.offset 0 = TRUE_BOOL then Except.ok (some true)
      else Except.ok none
    else Except.error PanicKind.outOfBounds
  else Except.error PanicKind.typeMismatch

/-- `Property::get_length`: assert the declared type is dynamic, resolve
the header at `p.offset`, and return `some header.length` unless the
header is null. -/
def get_length (base : Nat) (p : Property) (object : List Nat) :
    Res (Option Nat) :=
  if is_dynamic p.data_type then
    match get_list_position base object p.offset with
    | Except.error e => Except.error e
    | Except.ok dp =>
      if dp.is_null then Except.ok none else Except.ok (some dp.length)
  else Except.error PanicKind.typeMismatch

/-- `Property::is_null`: dispatch on the declared type; static types
compare against their null sentinel, dynamic types test the header. -/
def is_null (base : Nat) (p : Property) (object : List Nat) : Res Bool :=
  match p.data_type with
  | DataType.Int =>
    match get_int p object with
    | Except.error e => Except.error e
    | Except.ok v => Except.ok (v == NULL_INT)
  | DataType.Long =>
    match get_long p object with
    | Except.error e => Except.error e
    | Except.ok v => Except.ok (v == NULL_LONG)
  | DataType.Float =>
    match get_float p object with
    | Except.error e => Except.error e
    | Except.ok bits => Except.ok (f32_is_nan bits)
  | DataType.Double =>
    match get_double p object with
    | Except.error e => Except.error e
    | Except.ok bits => Except.ok (f64_is_nan bits)
  | DataType.Bool =>
    match get_bool p object with
    | Except.error e => Except.error e
    | Except.ok ob => Except.ok ob.isNone
  | _ =>
    match get_length base p object with
    | Except.error e => Except.error e
    | Except.ok l => Except.ok l.isNone

/-- Is `b` a UTF-8 continuation byte (`0x80..0xBF`)? -/
def isCont (b : Nat) : Bool :=
  decide (0x80 ≤ b) && decide (b ≤ 0xBF)

/-- One pass of the standard UTF-8 validity table, with fuel (each step
consumes at least one byte, so `fuel = length` suffices). This models
`std::str::from_utf8` succeeding: it rejects overlong encodings,
surrogates and code points above `0x10FFFF`. -/
def validUtf8Fuel : Nat → List Nat → Bool
  | 0, l => l.isEmpty
  | _ + 1, [] => true
  | fuel + 1, b :: rest =>
    if b ≤ 0x7F then validUtf8Fuel fuel rest
    else if 0xC2 ≤ b ∧ b ≤ 0xDF then
      match rest with
      | c1 :: rest1 => isCont c1 && validUtf8Fuel fuel rest1
      | [] => false
    else if b = 0xE0 then
      match rest with
      | c1 :: c2 :: rest2 =>
        decide (0xA0 ≤ c1) && decide (c1 ≤ 0xBF) && isCont c2 &&
          validUtf8Fuel fuel rest2
      | _ => false
    else if (0xE1 ≤ b ∧ b ≤ 0xEC) ∨ b = 0xEE ∨ b = 0xEF then
      match rest with
      | c1 :: c2 :: rest2 => isCont c1 && isCont c2 && validUtf8Fuel fuel rest2
      | _ => false
    else if b = 0xED then
      match rest with
      | c1 :: c2 :: rest2 =>
        decide (0x80 ≤ c1) && decide (c1 ≤ 0x9F) && isCont c2 &&
          validUtf8Fuel fuel rest2
      | _ => false
    else if b = 0xF0 then
      match rest with
      | c1 :: c2 :: c3 :: rest3 =>
        decide (0x90 ≤ c1) && decide (c1 ≤ 0xBF) && isCont c2 && isCont c3 &&
          validUtf8Fuel fuel rest3
      | _ => false
    else if 0xF1 ≤ b ∧ b ≤ 0xF3 then
      match rest with
      | c1 :: c2 :: c3 :: rest3 =>
        isCont c1 && isCont c2 && isCont c3 && validUtf8Fuel fuel rest3
      | _ => false
    else if b = 0xF4 then
      match rest with
      | c1 :: c2 :: c3 :: rest3 =>
        decide (0x80 ≤ c1) && decide (c1 ≤ 0x8F) && isCont c2 && isCont c3 &&
          validUtf8Fuel fuel rest3
      | _ => false
    else false

/-- `std::str::from_utf8(bytes).is_ok()`: the byte sequence is valid
UTF-8. (A Rust `&str` is the same byte slice, revalidated as UTF-8, so
the decoded string is modelled as the payload bytes themselves.) -/
def isValidUtf8 (l : List Nat) : Bool :=
  validUtf8Fuel l.length l

/-- `Property::get_string`: assert the declared type is String, resolve
the payload via `get_list::<u8>`, and `unwrap` the UTF-8 validation of
the payload (panicking on invalid UTF-8). -/
def get_string (base : Nat) (p : Property) (object : List Nat) :
    Res (Option (List Nat)) :=
  if p.data_type = DataType.String then
    match get_list base object p.offset 1 with
    | Except.error e => Except.error e
    | Except.ok none => Except.ok none
    | Except.ok (some bytes) =>
      if isValidUtf8 bytes then Except.ok (some bytes)
      else Except.error PanicKind.utf8Error
  else Except.error PanicKind.typeMismatch

/-- `Property::get_bytes`: assert the declared type is Bytes, then
`get_list::<u8>`. -/
def get_bytes (base : Nat) (p : Property) (object : List Nat) :
    Res (Option (List Nat)) :=
  if p.data_type = DataType.Bytes then get_list base object p.offset 1
  else Except.error PanicKind.typeMismatch

/-- `Property::get_int_list`: assert the declared type is IntList, then
`get_list::<i32>` (element size 4, little-endian `i32` elements). -/
def get_int_list (base : Nat) (p : Property) (object : List Nat) :
    Res (Option (List Int)) :=
  if p.data_type = DataType.IntList then
    match get_list base object p.offset 4 with
    | Except.error e => Except.error e
    | Except.ok none => Except.ok none
    | Except.ok (some bytes) =>
      Except.ok (some (decodeChunks Int (fun c => toSigned 32 (leVal c)) 4 bytes))
  else Except.error PanicKind.typeMismatch

/-- `Property::get_long_list`: assert the declared type is LongList, then
`get_list::<i64>` (element size 8, little-endian `i64` elements). -/
def get_long_list (base : Nat) (p : Property) (object : List Nat) :
    Res (Option (List Int)) :=
  if p.data_type = DataType.LongList then
    match get_list base object p.offset 8 with
    | Except.error e => Except.error e
    | Except.ok none => Except.ok none
    | Except.ok (some bytes) =>
      Except.ok (some (decodeChunks Int (fun c => toSigned 64 (leVal c)) 8 bytes))
  else Except.error PanicKind.typeMismatch

/-- `Property::get_float_list`: assert the declared type is FloatList,
then `get_list::<f32>` (element size 4, elements kept as bit patterns). -/
def get_float_list (base : Nat) (p : Property) (object : List Nat) :
    Res (Option (List Nat)) :=
  if p.data_type = DataType.FloatList then
    match get_list base object p.offset 4 with
    | Except.error e => Except.error e
    | Except.ok none => Except.ok none
    | Except.ok (some bytes) =>
      Except.ok (some (decodeChunks Nat leVal 4 bytes))
  else Except.error PanicKind.typeMismatch

/-- `Property::get_double_list`: assert the declared type is DoubleList,
then `get_list::<f64>` (element size 8, elements kept as bit patterns). -/
def get_double_list (base : Nat) (p : Property) (object : List Nat) :
    Res (Option (List Nat)) :=
  if p.data_type = DataType.DoubleList then
    match get_list base object p.offset 8 with
    | Except.error e => Except.error e
    | Except.ok none => Except.ok none
    | Except.ok (some bytes) =>
      Except.ok (some (decodeChunks Nat leVal 8 bytes))
  else Except.error PanicKind.typeMismatch

/-- `Property::get_bytes_list`, exactly as written in the source: no type
assert; resolve the outer header; for `i in 0..outer.length` call
`get_list::<u8>(object, outer.offset + i)` — note the inner header offset
steps by `i`, not by `i * size_of::<DataPosition>()`. -/
def get_bytes_list (base : Nat) (p : Property) (object : List Nat) :
    Res (Option (List (Option (List Nat)))) :=
  match get_list_position base object p.offset with
  | Except.error e => Except.error e
  | Except.ok dp =>
    if dp.is_null then Except.ok none
    else
      match (List.range dp.length).mapM
          (fun i => get_list base object (dp.offset + i) 1) with
      | Except.error e => Except.error e
      | Except.ok lists => Except.ok (some lists)

/-- Modelled from the spec (section 4.4): the documented behaviour of
`get_bytes_list` — the inner DataPosition of element `i` sits at absolute
offset `outer.offset + i * size_of::<DataPosition>()`, i.e.
`outer.offset + i * 8`; each inner header resolves independently via
`get_list::<u8>`. Kept separate so that the source's
`get_bytes_list` can be compared against it. -/
def get_bytes_list_spec (base : Nat) (p : Property) (object : List Nat) :
    Res (Option (List (Option (List Nat)))) :=
  match get_list_position base object p.offset with
  | Except.error e => Except.error e
  | Except.ok dp =>
    if dp.is_null then Except.ok none
    else
      match (List.range dp.length).mapM
          (fun i => get_list base object (dp.offset + i * 8) 1) with
      | Except.error e => Except.error e
      | Except.ok lists => Except.ok (some lists)

/-- `Property::get_static_raw`, exactly as written in the source:
`&object[offset..offset + 4]` for Int and Float,
`&object[offset..offset]` for Bool (the empty slice), and
`&object[offset..offset + 8]` for every other type. -/
def get_static_raw (p : Property) (object : List Nat) : Res (List Nat) :=
  match p.data_type with
  | DataType.Int | DataType.Float =>
    if p.offset + 4 ≤ object.length then
      Except.ok ((object.drop p.offset).take 4)
    else Except.error PanicKind.outOfBounds
  | DataType.Bool =>
    if p.offset ≤ object.length then
      Except.ok ((object.drop p.offset).take 0)
    else Except.error PanicKind.outOfBounds
  | _ =>
    if p.offset + 8 ≤ object.length then
      Except.ok ((object.drop p.offset).take 8)
    else Except.error PanicKind.outOfBounds

/-- `Property::get_dynamic_raw`: the body is `unimplemented!()`. -/
def get_dynamic_raw (_p : Property) (_object : List Nat) :
    Res (Option (List Nat)) :=
  Except.error PanicKind.notImplemented

/-! ### Helper lemmas -/

theorem readLE_eq_zero_iff (n : Nat) :
    ∀ (object : List Nat) (o : Nat),
      readLE object o n = 0 ↔ ∀ i, i < n → object.getD (o + i) 0 = 0 := by
  induction n with
  | zero =>
    intro object o
    simp [readLE]
  | succ m ih =>
    intro object o
    rw [readLE]
    constructor
    · intro h i hi
      have h1 : object.getD o 0 = 0 ∧ readLE object (o + 1) m = 0 := by omega
      match i with
      | 0 => simpa using h1.1
      | j + 1 =>
        have hj := (ih object (o + 1)).1 h1.2 j (by omega)
        rwa [show o + 1 + j = o + (j + 1) by omega] at hj
    · intro h
      have h0 : object.getD o 0 = 0 := by simpa using h 0 (by omega)
      have hr : readLE object (o + 1) m = 0 := by
        refine (ih object (o + 1)).2 (fun j hj => ?_)
        have := h (j + 1) (by omega)
        rwa [show o + (j + 1) = o + 1 + j by omega] at this
      omega

theorem readLE_congr (n : Nat) :
    ∀ (o1 o2 : List Nat) (off : Nat),
      (∀ i, i < n → o1.getD (off + i) 0 = o2.getD (off + i) 0) →
      readLE o1 off n = readLE o2 off n := by
  induction n with
  | zero => intro o1 o2 off _; rfl
  | succ m ih =>
    intro o1 o2 off h
    rw [readLE, readLE]
    have h0 := h 0 (by omega)
    simp only [Nat.add_zero] at h0
    rw [h0, ih o1 o2 (off + 1) (fun j hj => by
      have := h (j + 1) (by omega)
      rwa [show off + (j + 1) = off + 1 + j by omega] at this)]

theorem get_list_position_eval (base : Nat) (object : List Nat) (o : Nat)
    (hlen : o + 8 ≤ object.length) (halign : (base + o) % 8 = 0) :
    get_list_position base object o =
      Except.ok ⟨readLE object o 4, readLE object (o + 4) 4⟩ := by
  simp [get_list_position, hlen, halign]

theorem is_null_dynamic_eval (base : Nat) (p : Property) (object : List Nat)
    (hdyn : is_dynamic p.data_type = true)
    (hlen : p.offset + 8 ≤ object.length)
    (halign : (base + p.offset) % 8 = 0) :
    is_null base p object = Except.ok (readLE object p.offset 4 == 0) := by
  obtain ⟨t, o⟩ := p
  have hh := get_list_position_eval base object o hlen halign
  cases t <;> simp [is_dynamic] at hdyn <;>
    (by_cases h0 : readLE object o 4 = 0 <;>
      simp [is_null, get_length, is_dynamic, DataPosition.is_null, hh, h0])

theorem get_bool_eval (p : Property) (object : List Nat)
    (ht : p.data_type = DataType.Bool) (hlen : p.offset < object.length) :
    get_bool p object =
      Except.ok
        (if object.getD p.offset 0 = 0 then some false
         else if object.getD p.offset 0 = 1 then some true
         else none) := by
  unfold get_bool
  rw [if_pos ht, if_pos hlen]
  simp only [FALSE_BOOL, TRUE_BOOL]
  split_ifs <;> rfl

/-! ### Claim theorems -/

/-- C1 (code behaviour at the failing input): `get_bytes_list` steps the
inner DataPosition offset by `i`, not by `i * 8`. On the blob whose outer
header is `{offset = 8, length = 2}` with two well-formed inner headers
at bytes 8..16 and 16..24 (payloads `[1]` at byte 24 and `[2]` at byte
25), the source's `get_bytes_list` reads the second inner header at
absolute offset 9 and dies on the `transmute_verify_alignment` assert
(`9 % 8 ≠ 0`), while the spec-described stride of 8 yields
`some [some [1], some [2]]`. -/
theorem get_bytes_list_inner_stride_bug :
    get_bytes_list 0 ⟨DataType.BytesList, 0⟩
        [8, 0, 0, 0, 2, 0, 0, 0, 24, 0, 0, 0, 1, 0, 0, 0,
         25, 0, 0, 0, 1, 0, 0, 0, 1, 2]
      = Except.error PanicKind.wrongAlignment ∧
    get_bytes_list_spec 0 ⟨DataType.BytesList, 0⟩
        [8, 0, 0, 0, 2, 0, 0, 0, 24, 0, 0, 0, 1, 0, 0, 0,
         25, 0, 0, 0, 1, 0, 0, 0, 1, 2]
      = Except.ok (some [some [1], some [2]]) := by
  decide

/-- C2 counterexample: with an 8-byte-aligned blob base and a header
offset `o = 4` (so `o % 4 = 0` and `o + 8` is within bounds), reading the
header fails on the alignment assert: `o % 4 = 0` does not satisfy the
accessor's alignment precondition. -/
theorem get_list_position_mod_four_insufficient :
    4 % 4 = 0 ∧ (0 : Nat) % 8 = 0 ∧
    4 + 8 ≤ ([0, 0, 0, 0, 0, 0, 0, 0, 0, 0, 0, 0] : List Nat).length ∧
    get_list_position 0 [0, 0, 0, 0, 0, 0, 0, 0, 0, 0, 0, 0] 4 =
      Except.error PanicKind.wrongAlignment := by
  decide

/-- C2 (amended): `transmute_verify_alignment::<DataPosition>` asserts
that the header's address is divisible by
`size_of::<DataPosition>() = 8`, so for a blob based at `base` the header
read at offset `o` (with `o + 8` in bounds) succeeds exactly when
`(base + o) % 8 = 0` — in particular, with an 8-byte-aligned base the
requirement on `o` is `o % 8 = 0`, not merely `o % 4 = 0`. -/
theorem get_list_position_alignment_requirement (base : Nat)
    (object : List Nat) (o : Nat) (hlen : o + 8 ≤ object.length) :
    ((base + o) % 8 = 0 →
      get_list_position base object o =
        Except.ok ⟨readLE object o 4, readLE object (o + 4) 4⟩)
  ∧ ((base + o) % 8 ≠ 0 →
      get_list_position base object o = Except.error PanicKind.wrongAlignment) := by
  constructor
  · intro ha
    simp [get_list_position, hlen, ha]
  · intro ha
    simp [get_list_position, hlen, ha]

/-- C2 witness: the amended claim at a concrete input — base 0, offset 8,
a 16-byte blob: the aligned branch applies. -/
theorem get_list_position_alignment_requirement_witness :
    get_list_position 0 [0, 0, 0, 0, 0, 0, 0, 0, 3, 0, 0, 0, 7, 0, 0, 0] 8 =
      Except.ok ⟨readLE [0, 0, 0, 0, 0, 0, 0, 0, 3, 0, 0, 0, 7, 0, 0, 0] 8 4,
        readLE [0, 0, 0, 0, 0, 0, 0, 0, 3, 0, 0, 0, 7, 0, 0, 0] (8 + 4) 4⟩ :=
  (get_list_position_alignment_requirement 0
    [0, 0, 0, 0, 0, 0, 0, 0, 3, 0, 0, 0, 7, 0, 0, 0] 8 (by decide)).1 (by decide)

/-- C3 (code behaviour at the failing input): for a Bool property
`get_static_raw` is `&object[offset..offset]`, the empty slice — not the
one byte backing the value. On `Property(Bool, 0)` and blob `[1]` it
returns the 0-byte slice instead of `[1]`. -/
theorem get_static_raw_bool_empty_slice :
    get_static_raw ⟨DataType.Bool, 0⟩ [1] = Except.ok [] ∧
    (Except.ok [] : Res (List Nat)) ≠ Except.ok [1] := by
  decide

/-- C4 counterexample: `get_bytes_list` performs no type assertion — on a
property declared `Int` and an all-zero 8-byte blob it returns normally
(`none`, the null header answer) instead of aborting with a type
diagnostic. -/
theorem get_bytes_list_no_type_assert :
    get_bytes_list 0 ⟨DataType.Int, 0⟩ [0, 0, 0, 0, 0, 0, 0, 0] =
      Except.ok none := by
  decide

/-- C4 (amended): `get_string`, `get_bytes`, `get_int_list`,
`get_long_list`, `get_float_list` and `get_double_list` each abort with
the type-mismatch diagnostic whenever the property's declared type
differs from the getter's, for every blob; `get_bytes_list` alone has no
such assert — its result ignores the declared type entirely. -/
theorem dynamic_getters_type_assert (base : Nat) (p : Property)
    (object : List Nat) :
    (p.data_type ≠ DataType.String →
      get_string base p object = Except.error PanicKind.typeMismatch)
  ∧ (p.data_type ≠ DataType.Bytes →
      get_bytes base p object = Except.error PanicKind.typeMismatch)
  ∧ (p.data_type ≠ DataType.IntList →
      get_int_list base p object = Except.error PanicKind.typeMismatch)
  ∧ (p.data_type ≠ DataType.LongList →
      get_long_list base p object = Except.error PanicKind.typeMismatch)
  ∧ (p.data_type ≠ DataType.FloatList →
      get_float_list base p object = Except.error PanicKind.typeMismatch)
  ∧ (p.data_type ≠ DataType.DoubleList →
      get_double_list base p object = Except.error PanicKind.typeMismatch)
  ∧ (∀ t : DataType,
      get_bytes_list base ⟨t, p.offset⟩ object = get_bytes_list base p object) := by
  refine ⟨?_, ?_, ?_, ?_, ?_, ?_, fun t => rfl⟩ <;> intro h <;>
    simp [get_string, get_bytes, get_int_list, get_long_list,
      get_float_list, get_double_list, h]

/-- C4 witness: the amended claim at a concrete input — `get_string` on a
Bytes-typed property aborts with the type diagnostic. -/
theorem dynamic_getters_type_assert_witness :
    get_string 0 ⟨DataType.Bytes, 0⟩ [] = Except.error PanicKind.typeMismatch :=
  (dynamic_getters_type_assert 0 ⟨DataType.Bytes, 0⟩ []).1 (by decide)

/-- C10: `get_dynamic_raw` is `unimplemented!()`: for every property and
blob it panics, and never returns a raw byte view. -/
theorem get_dynamic_raw_never_returns (p : Property) (object : List Nat) :
    get_dynamic_raw p object = Except.error PanicKind.notImplemented ∧
    ∀ v, get_dynamic_raw p object ≠ Except.ok v := by
  refine ⟨rfl, fun v h => ?_⟩
  simp [get_dynamic_raw] at h

/-- C5: for every static property and blob of sufficient length,
`is_null` answers exactly the sentinel comparison on the raw
little-endian primitive at `p.offset`: `i32::MIN` for Int, `i64::MIN`
for Long, `is_nan` for Float and Double, and for Bool any byte other
than 0 and 1. -/
theorem is_null_static_iff_sentinel (base : Nat) (p : Property)
    (object : List Nat) :
    (p.data_type = DataType.Int → p.offset + 4 ≤ object.length →
      (is_null base p object = Except.ok true ↔
        toSigned 32 (readLE object p.offset 4) = NULL_INT))
  ∧ (p.data_type = DataType.Long → p.offset + 8 ≤ object.length →
      (is_null base p object = Except.ok true ↔
        toSigned 64 (readLE object p.offset 8) = NULL_LONG))
  ∧ (p.data_type = DataType.Float → p.offset + 4 ≤ object.length →
      (is_null base p object = Except.ok true ↔
        f32_is_nan (readLE object p.offset 4) = true))
  ∧ (p.data_type = DataType.Double → p.offset + 8 ≤ object.length →
      (is_null base p object = Except.ok true ↔
        f64_is_nan (readLE object p.offset 8) = true))
  ∧ (p.data_type = DataType.Bool → p.offset < object.length →
      (is_null base p object = Except.ok true ↔
        (object.getD p.offset 0 ≠ FALSE_BOOL ∧
          object.getD p.offset 0 ≠ TRUE_BOOL))) := by
  obtain ⟨t, o⟩ := p
  refine ⟨?_, ?_, ?_, ?_, ?_⟩ <;> intro ht hlen <;> subst ht
  · simp [is_null, get_int, hlen]
  · simp [is_null, get_long, hlen]
  · simp [is_null, get_float, hlen]
  · simp [is_null, get_double, hlen]
  · have hb := get_bool_eval ⟨DataType.Bool, o⟩ object rfl hlen
    simp only [is_null, hb, FALSE_BOOL, TRUE_BOOL]
    split_ifs <;> simp_all

/-- C5 witness: the Int conjunct at `Property(Int, 0)` and the blob
holding the little-endian encoding of `i32::MIN`. -/
theorem is_null_static_iff_sentinel_witness :
    is_null 0 ⟨DataType.Int, 0⟩ [0, 0, 0, 128] = Except.ok true :=
  ((is_null_static_iff_sentinel 0 ⟨DataType.Int, 0⟩ [0, 0, 0, 128]).1
    rfl (by decide)).2 (by decide)

/-- C6: for every dynamic property and every blob long and aligned
enough to hold the header, `is_null` is true exactly when the 4 header
bytes at `p.offset` (the little-endian `offset` field) are all zero; the
call always returns (no panic), and blobs agreeing on those 4 bytes get
the same answer, so the header's `length` field has no influence. -/
theorem is_null_dynamic_iff_header_offset_zero (base : Nat) (p : Property)
    (object : List Nat)
    (hdyn : is_dynamic p.data_type = true)
    (hlen : p.offset + 8 ≤ object.length)
    (halign : (base + p.offset) % 8 = 0) :
    (is_null base p object = Except.ok true ↔
      ∀ i, i < 4 → object.getD (p.offset + i) 0 = 0)
  ∧ (is_null base p object = Except.ok true ∨
      is_null base p object = Except.ok false)
  ∧ (∀ object2 : List Nat, object2.length = object.length →
      (∀ i, i < 4 → object2.getD (p.offset + i) 0 = object.getD (p.offset + i) 0) →
      is_null base p object2 = is_null base p object) := by
  have h1 := is_null_dynamic_eval base p object hdyn hlen halign
  refine ⟨?_, ?_, ?_⟩
  · rw [h1]
    constructor
    · intro h
      have hb : (readLE object p.offset 4 == 0) = true := Except.ok.inj h
      exact (readLE_eq_zero_iff 4 object p.offset).1 (by simpa using hb)
    · intro h
      have hz : readLE object p.offset 4 = 0 :=
        (readLE_eq_zero_iff 4 object p.offset).2 h
      simp [hz]
  · rw [h1]
    by_cases hz : readLE object p.offset 4 = 0 <;> simp [hz]
  · intro object2 hl2 hagree
    have h2 := is_null_dynamic_eval base p object2 hdyn (by omega) halign
    rw [h1, h2, readLE_congr 4 object2 object p.offset hagree]

/-- C6 witness: `Property(String, 0)` on an 8-byte blob whose header
offset bytes are zero: the first conjunct's iff at a concrete input. -/
theorem is_null_dynamic_iff_header_offset_zero_witness :
    is_null 0 ⟨DataType.String, 0⟩ [0, 0, 0, 0, 1, 0, 0, 0] = Except.ok true :=
  ((is_null_dynamic_iff_header_offset_zero 0 ⟨DataType.String, 0⟩
    [0, 0, 0, 0, 1, 0, 0, 0] (by decide) (by decide) (by decide)).1).2
    (by decide)

/-- C7: a non-null header with `length = 0` and in-range `offset` makes
`get_list` (the common resolver of every dynamic getter) return a
present, zero-length payload — never `none`; accordingly `get_int_list`
returns `some []`. -/
theorem get_list_empty_list_present (base : Nat) (p : Property)
    (object : List Nat) (type_size : Nat)
    (hlen : p.offset + 8 ≤ object.length)
    (halign : (base + p.offset) % 8 = 0)
    (hoff : readLE object p.offset 4 ≠ 0)
    (hzero : readLE object (p.offset + 4) 4 = 0)
    (hrange : readLE object p.offset 4 ≤ object.length)
    (hpal : (base + readLE object p.offset 4) % type_size = 0) :
    get_list base object p.offset type_size = Except.ok (some [])
  ∧ (p.data_type = DataType.IntList →
      (base + readLE object p.offset 4) % 4 = 0 →
      get_int_list base p object = Except.ok (some [])) := by
  have hh := get_list_position_eval base object p.offset hlen halign
  have hmain : ∀ ts : Nat, (base + readLE object p.offset 4) % ts = 0 →
      get_list base object p.offset ts = Except.ok (some []) := by
    intro ts hts
    simp [get_list, hh, DataPosition.is_null, hoff, hzero, hrange, hts]
  refine ⟨hmain type_size hpal, fun ht hpal4 => ?_⟩
  simp [get_int_list, ht, hmain 4 hpal4, decodeChunks]

/-- C7 witness: header `{offset = 4, length = 0}` in an 8-byte blob,
with `type_size = 1`. -/
theorem get_list_empty_list_present_witness :
    get_list 0 [4, 0, 0, 0, 0, 0, 0, 0] 0 1 = Except.ok (some []) :=
  (get_list_empty_list_present 0 ⟨DataType.IntList, 0⟩
    [4, 0, 0, 0, 0, 0, 0, 0] 1 (by decide) (by decide) (by decide)
    (by decide) (by decide) (by decide)).1

/-- C8: `get_bool` decodes the byte at `p.offset` as a tri-state:
0 is `some false`, 1 is `some true`, every other byte value is `none`. -/
theorem get_bool_tri_state (p : Property) (object : List Nat)
    (ht : p.data_type = DataType.Bool) (hlen : p.offset < object.length) :
    get_bool p object =
      Except.ok
        (if object.getD p.offset 0 = 0 then some false
         else if object.getD p.offset 0 = 1 then some true
         else none) :=
  get_bool_eval p object ht hlen

/-- C8 witness: byte 255 decodes to `none`. -/
theorem get_bool_tri_state_witness :
    get_bool ⟨DataType.Bool, 0⟩ [255] = Except.ok none :=
  (get_bool_tri_state ⟨DataType.Bool, 0⟩ [255] rfl (by decide)).trans
    (by decide)

/-- C9: for a String property with a non-null, in-range header,
`get_string` returns the payload exactly when it is valid UTF-8 (a Rust
`&str` is the validated byte slice itself), and panics on the
`from_utf8(...).unwrap()` otherwise — it never returns a value built
from invalid UTF-8. -/
theorem get_string_utf8_validation (base : Nat) (p : Property)
    (object : List Nat)
    (ht : p.data_type = DataType.String)
    (hlen : p.offset + 8 ≤ object.length)
    (halign : (base + p.offset) % 8 = 0)
    (hoff : readLE object p.offset 4 ≠ 0)
    (hrange : readLE object p.offset 4 + readLE object (p.offset + 4) 4 ≤
      object.length) :
    (isValidUtf8 ((object.drop (readLE object p.offset 4)).take
        (readLE object (p.offset + 4) 4)) = true →
      get_string base p object =
        Except.ok (some ((object.drop (readLE object p.offset 4)).take
          (readLE object (p.offset + 4) 4))))
  ∧ (isValidUtf8 ((object.drop (readLE object p.offset 4)).take
        (readLE object (p.offset + 4) 4)) = false →
      get_string base p object = Except.error PanicKind.utf8Error) := by
  have hh := get_list_position_eval base object p.offset hlen halign
  have hl : get_list base object p.offset 1 =
      Except.ok (some ((object.drop (readLE object p.offset 4)).take
        (readLE object (p.offset + 4) 4))) := by
    simp [get_list, hh, DataPosition.is_null, hoff, Nat.mod_one, hrange]
  constructor <;> intro hv <;> simp [get_string, ht, hl, hv]

/-- C9 witness: header `{offset = 8, length = 5}` followed by the bytes
of "hello" yields the present decoded payload. -/
theorem get_string_utf8_validation_witness :
    get_string 0 ⟨DataType.String, 0⟩
        [8, 0, 0, 0, 5, 0, 0, 0, 104, 101, 108, 108, 111] =
      Except.ok (some [104, 101, 108, 108, 111]) :=
  ((get_string_utf8_validation 0 ⟨DataType.String, 0⟩
    [8, 0, 0, 0, 5, 0, 0, 0, 104, 101, 108, 108, 111] rfl (by decide)
    (by decide) (by decide) (by decide)).1 (by decide)).trans (by decide)

end IsarCore
